import Mathlib

/-!
Verification of `src/spl-tokens/check-token-account-balance/token-balance-rust/src/main.rs`
(repository `quicknode-solana-examples`).

The program is a 15-line Rust binary:

```rust
const TOKEN_ADDRESS: &str = "Token address";
fn main() {
    let associated_token_account = Pubkey::from_str(TOKEN_ADDRESS).unwrap();
    let connection = RpcClient::new("https://api.mainnet-beta.solana.com".to_string());
    let account_data = connection
        .get_token_account_balance(&associated_token_address)
        .unwrap();
    println!("Token Balance (using Rust): {}", account_data.ui_amount_string);
}
```

We shallowly embed it as a pure function from an RPC oracle (the network's
response to a get-token-account-balance request) to a `Run` recording the
requests issued and the terminal outcome (a printed line, or a panic coming
from `.unwrap()` on an `Err`).

`Pubkey::from_str` (solana_sdk) is embedded faithfully: reject strings longer
than 44 characters, base-58 decode (Bitcoin alphabet; each leading `1` is a
zero byte, the remainder is the big-endian byte rendering of the base-58
value; any character outside the alphabet fails the decode), and reject
decodings whose byte length is not 32.

Line 9 of the source names `associated_token_address`, a variable that was
never declared (the only declared binding is `associated_token_account` on
line 6), so the file does not compile verbatim; following the spec's stated
corrected reading, the model passes the single declared parsed pubkey to the
RPC call.
-/

/-- Decimal/arbitrary-base digit extraction, least-significant first, with
structural fuel so it evaluates in the kernel.  `digitsFuel b f n` agrees with
`Nat.digits b n` whenever `n ≤ f` and `1 < b`. -/
def digitsFuel (b : Nat) : Nat → Nat → List Nat
  | 0, _ => []
  | f + 1, n => if n = 0 then [] else n % b :: digitsFuel b f (n / b)

/-- Base-10 digits of `n`, least-significant first (empty for `0`). -/
def decDigits (n : Nat) : List Nat := digitsFuel 10 n n

/-- Big-endian byte rendering of a natural number (empty for `0`), as produced
by the numeric part of a bs58 decode. -/
def beBytes (v : Nat) : List Nat := (digitsFuel 256 v v).reverse

/-- The character for a single decimal digit. -/
def decChar (d : Nat) : Char := Char.ofNat (48 + d)

/-- Decimal rendering of a natural number. -/
def natToStr (n : Nat) : String :=
  if n = 0 then "0" else String.mk ((decDigits n).reverse.map decChar)

/-- Modelled from the spec: the ledger-side decimal rendering of
`rawAmount / 10^decimals` that populates `uiAmountString` is not code of this
repository (the program merely prints the field it receives), so it is
modelled from the spec's rule "uiAmountString is a decimal-formatted rendering
of rawAmount / 10^decimals" and its worked examples.  `uiParts raw d` returns
the integer part together with the fractional digits, least-significant
first, after stripping trailing (i.e. lowest-order) zero digits. -/
def uiParts (raw d : Nat) : Nat × List Nat :=
  let base := 10 ^ d
  let frac := raw % base
  let padded := decDigits frac ++ List.replicate (d - (decDigits frac).length) 0
  (raw / base, padded.dropWhile (fun x => x == 0))

/-- The exact rational value denoted by a `uiParts` pair: the integer part
plus the fractional digits scaled down by their length. -/
def uiValue (p : Nat × List Nat) : ℚ :=
  (p.1 : ℚ) + ((Nat.ofDigits 10 p.2 : ℕ) : ℚ) / 10 ^ p.2.length

/-- Modelled from the spec: the decimal string rendering of
`rawAmount / 10^decimals`, with the fractional part omitted when it is zero
and trailing zeros stripped (per the spec's examples
`(1500000,6) ↦ "1.5"`, `(100,2) ↦ "1"`, `(1,9) ↦ "0.000000001"`,
`(0,0) ↦ "0"`). -/
def uiAmountString (raw d : Nat) : String :=
  let p := uiParts raw d
  if p.2 = [] then natToStr p.1
  else natToStr p.1 ++ "." ++ String.mk (p.2.reverse.map decChar)

/-- The base-58 alphabet used by bs58 (the Bitcoin alphabet). -/
def BASE58_ALPHABET : String :=
  "123456789ABCDEFGHJKLMNPQRSTUVWXYZabcdefghijkmnopqrstuvwxyz"

/-- The base-58 value of a character: its index in the alphabet, or `none`
for a character outside the alphabet. -/
def b58Index (c : Char) : Option Nat :=
  BASE58_ALPHABET.toList.findIdx? (· == c)

/-- Convert every character of a candidate base-58 string to its value;
fails if any character is outside the alphabet. -/
def b58Values : List Char → Option (List Nat)
  | [] => some []
  | c :: cs =>
    match b58Index c, b58Values cs with
    | some d, some ds => some (d :: ds)
    | _, _ => none

/-- `bs58::decode(s).into_vec()`: fail on any character outside the alphabet;
otherwise each leading `1` contributes one zero byte and the remaining
characters are read as a base-58 number written out big-endian. -/
def b58Decode (s : String) : Option (List Nat) :=
  match b58Values s.toList with
  | none => none
  | some ds =>
    let zeros := (s.toList.takeWhile (fun c => c == '1')).length
    let v := (ds.drop zeros).foldl (fun a d => a * 58 + d) 0
    some (List.replicate zeros 0 ++ beBytes v)

/-- A Solana public key: 32 bytes. -/
def PUBKEY_BYTES : Nat := 32

/-- `Pubkey::from_str` (solana_sdk): reject inputs longer than
`MAX_BASE58_LEN = 44`, base-58 decode, and reject decodings that are not
exactly 32 bytes.  All error variants collapse to `none` (the program only
ever `.unwrap()`s the result). -/
def pubkeyFromStr (s : String) : Option (List Nat) :=
  if s.length > 44 then none
  else
    match b58Decode s with
    | none => none
    | some bytes => if bytes.length = PUBKEY_BYTES then some bytes else none

/-- The token-balance record returned by `get_token_account_balance`
(`UiTokenAmount`): the raw amount as text, the decimal count, and the
ledger-rendered `ui_amount_string`.  (The source also carries an optional
floating-point `ui_amount`, unused by this program and outside the model.) -/
structure UiTokenAmount where
  amount : String
  decimals : Nat
  ui_amount_string : String
deriving DecidableEq, Repr

/-- What the network does with the single RPC request: either a well-formed
balance response or a failure (transport error, not-found, and so on — the
program treats every failure alike, by panicking on `.unwrap()`). -/
inductive RpcResponse where
  | ok (bal : UiTokenAmount)
  | err
deriving DecidableEq, Repr

/-- An RPC oracle: the response of the network to a
get-token-account-balance request, as a function of the endpoint queried and
the pubkey asked about. -/
def RpcOracle : Type := String → List Nat → RpcResponse

/-- Terminal outcome of a run of `main`: a line printed to stdout, or a panic
raised by `.unwrap()` on an `Err`. -/
inductive Outcome where
  | printed (line : String)
  | panicked
deriving DecidableEq, Repr

/-- A complete run: the outbound requests issued, in order, each recording
the endpoint and the pubkey queried, and the terminal outcome. -/
structure Run where
  requests : List (String × List Nat)
  outcome : Outcome
deriving DecidableEq, Repr

/-- The body of `main`, generalized over the address string and endpoint it
is applied to (the source applies it to the two embedded constants):
parse the address (`.unwrap()` panics on failure, before any request), then
issue the single `get_token_account_balance` request for the parsed pubkey
(per the spec's corrected reading of the `associated_token_account` /
`associated_token_address` name mismatch), `.unwrap()` the response (panic on
any failure), and print the balance line. -/
def runWith (address endpoint : String) (oracle : RpcOracle) : Run :=
  match pubkeyFromStr address with
  | none => ⟨[], Outcome.panicked⟩
  | some pk =>
    match oracle endpoint pk with
    | RpcResponse.ok bal =>
      ⟨[(endpoint, pk)],
        Outcome.printed ("Token Balance (using Rust): " ++ bal.ui_amount_string)⟩
    | RpcResponse.err => ⟨[(endpoint, pk)], Outcome.panicked⟩

/-- Line 4 of the source: `const TOKEN_ADDRESS: &str = "Token address";`. -/
def TOKEN_ADDRESS : String := "Token address"

/-- The endpoint literal of line 7:
`RpcClient::new("https://api.mainnet-beta.solana.com".to_string())`. -/
def MAIN_ENDPOINT : String := "https://api.mainnet-beta.solana.com"

/-- `main`: `runWith` applied to the two constants embedded in the source. -/
def mainRun (oracle : RpcOracle) : Run := runWith TOKEN_ADDRESS MAIN_ENDPOINT oracle

/-! ### Helper lemmas: the fuelled digit extraction agrees with `Nat.digits`,
and the `uiParts` decomposition denotes exactly `raw / 10^d`. -/

theorem digitsFuel_eq_digits (b : Nat) (hb : 1 < b) :
    ∀ f n, n ≤ f → digitsFuel b f n = Nat.digits b n := by
  intro f
  induction f with
  | zero =>
    intro n hn
    have : n = 0 := Nat.le_zero.mp hn
    subst this
    simp [digitsFuel]
  | succ f ih =>
    intro n hn
    by_cases h0 : n = 0
    · subst h0; simp [digitsFuel]
    · have hpos : 0 < n := Nat.pos_of_ne_zero h0
      have hdiv : n / b ≤ f :=
        Nat.lt_succ_iff.mp (lt_of_lt_of_le (Nat.div_lt_self hpos hb) hn)
      rw [digitsFuel, if_neg h0, ih (n / b) hdiv, Nat.digits_def' hb hpos]

theorem decDigits_eq_digits (n : Nat) : decDigits n = Nat.digits 10 n :=
  digitsFuel_eq_digits 10 (by norm_num) n n le_rfl

theorem ofDigits_eq_zero (b : Nat) :
    ∀ L : List Nat, (∀ x ∈ L, x = 0) → Nat.ofDigits b L = 0
  | [], _ => by simp [Nat.ofDigits]
  | d :: L, h => by
    have hd : d = 0 := h d (by simp)
    have hL : Nat.ofDigits b L = 0 :=
      ofDigits_eq_zero b L (fun x hx => h x (by simp [hx]))
    simp [Nat.ofDigits_cons, hd, hL]

theorem decDigits_length_le (d frac : Nat) (h : frac < 10 ^ d) :
    (decDigits frac).length ≤ d := by
  rw [decDigits_eq_digits]
  by_cases h0 : frac = 0
  · simp [h0]
  · by_contra hlt
    push_neg at hlt
    have h1 : (10 : ℕ) ^ (d + 1) ≤ 10 ^ (Nat.digits 10 frac).length :=
      Nat.pow_le_pow_right (by norm_num) hlt
    have h2 : (10 : ℕ) ^ (Nat.digits 10 frac).length ≤ 10 * frac :=
      Nat.base_pow_length_digits_le 10 frac (by norm_num) h0
    have h3 : (10 : ℕ) ^ d * 10 ≤ 10 * frac := by
      calc (10 : ℕ) ^ d * 10 = 10 ^ (d + 1) := (pow_succ 10 d).symm
        _ ≤ 10 ^ (Nat.digits 10 frac).length := h1
        _ ≤ 10 * frac := h2
    have h4 : (10 : ℕ) ^ d ≤ frac := by
      have := Nat.le_of_mul_le_mul_left (by linarith [h3] : 10 * 10 ^ d ≤ 10 * frac)
        (by norm_num : 0 < 10)
      exact this
    exact absurd h (not_lt.mpr h4)

theorem uiValue_dropWhile_zeros (L : List Nat) :
    ((Nat.ofDigits 10 (L.dropWhile (fun x => x == 0)) : ℕ) : ℚ) /
        10 ^ (L.dropWhile (fun x => x == 0)).length
      = ((Nat.ofDigits 10 L : ℕ) : ℚ) / 10 ^ L.length := by
  conv_rhs => rw [← List.takeWhile_append_dropWhile (fun x => x == 0) L]
  have hT : (Nat.ofDigits 10 (L.takeWhile (fun x => x == 0)) : ℕ) = 0 :=
    ofDigits_eq_zero 10 _ (fun x hx => by
      have := List.mem_takeWhile_imp hx
      simpa using this)
  rw [Nat.ofDigits_append, hT, List.length_append]
  push_cast
  rw [pow_add, zero_add, mul_div_mul_left _ _ (by positivity : (10 : ℚ) ^
    (L.takeWhile (fun x => x == 0)).length ≠ 0)]

theorem uiParts_exact (raw d : Nat) :
    uiValue (uiParts raw d) = (raw : ℚ) / 10 ^ d := by
  have hbase : (0 : ℕ) < 10 ^ d := pow_pos (by norm_num) d
  have hfrac : raw % 10 ^ d < 10 ^ d := Nat.mod_lt _ hbase
  have hlenle : (decDigits (raw % 10 ^ d)).length ≤ d := decDigits_length_le d _ hfrac
  have hofd : (Nat.ofDigits 10 (decDigits (raw % 10 ^ d) ++
      List.replicate (d - (decDigits (raw % 10 ^ d)).length) 0) : ℕ) = raw % 10 ^ d := by
    rw [Nat.ofDigits_append, decDigits_eq_digits, Nat.ofDigits_digits,
      ofDigits_eq_zero 10 _ (fun x hx => (List.eq_of_mem_replicate hx)), mul_zero, add_zero]
  have hlen : (decDigits (raw % 10 ^ d) ++
      List.replicate (d - (decDigits (raw % 10 ^ d)).length) 0).length = d := by
    rw [List.length_append, List.length_replicate]
    omega
  have hup : uiParts raw d = (raw / 10 ^ d, (decDigits (raw % 10 ^ d) ++
      List.replicate (d - (decDigits (raw % 10 ^ d)).length) 0).dropWhile
      (fun x => x == 0)) := rfl
  rw [hup]
  simp only [uiValue]
  rw [uiValue_dropWhile_zeros, hofd, hlen]
  have hdm : (10 : ℚ) ^ d * ((raw / 10 ^ d : ℕ) : ℚ) + ((raw % 10 ^ d : ℕ) : ℚ) = raw := by
    exact_mod_cast congrArg (Nat.cast : ℕ → ℚ) (Nat.div_add_mod raw (10 ^ d))
  have h10 : (10 : ℚ) ^ d ≠ 0 := by positivity
  field_simp
  linarith [hdm]

/-! ### Claim theorems -/

/-- Claim C1 counterexample: the claim says failures of the fallible steps are
returned to the caller as typed `FetchError` results and the operation never
crashes the calling process.  In the program as written, running `main`
against any network (here: one whose response is a failure) ends in a panic
raised by `.unwrap()`, crashing the process. -/
theorem C1_counterexample :
    (mainRun (fun _ _ => RpcResponse.err)).outcome = Outcome.panicked := by decide

/-- Claim C1, amended: every failure of a fallible step (address parsing, or
the RPC balance request) terminates the process by a panic from `.unwrap()`;
no typed error result is ever returned to the caller (the code defines no
`FetchError` type). -/
theorem C1_unwrap_crashes (addr ep : String) (oracle : RpcOracle)
    (h : pubkeyFromStr addr = none ∨ ∀ pk, oracle ep pk = RpcResponse.err) :
    (runWith addr ep oracle).outcome = Outcome.panicked := by
  rcases h with h0 | he
  · simp [runWith, h0]
  · rcases hp : pubkeyFromStr addr with _ | pk
    · simp [runWith, hp]
    · simp [runWith, hp, he pk]

/-- Claim C1 witness: the amended theorem applied to the program's own
address constant (whose parse fails) under a failing network. -/
theorem C1_unwrap_crashes_witness :
    (runWith "Token address" "https://api.mainnet-beta.solana.com"
      (fun _ _ => RpcResponse.err)).outcome = Outcome.panicked :=
  C1_unwrap_crashes _ _ _ (Or.inl (by decide))

/-- Claim C2 counterexample: the claim says a syntactically invalid address
makes the fetch return `FetchError::InvalidAddress`.  On the invalid address
`"0"` (the character `0` is outside the base-58 alphabet) the program panics
instead of returning any value — though, as the claim also says, it issues no
network request. -/
theorem C2_counterexample :
    (runWith "0" "https://api.mainnet-beta.solana.com"
        (fun _ _ => RpcResponse.ok ⟨"0", 0, "0"⟩)).outcome = Outcome.panicked ∧
      (runWith "0" "https://api.mainnet-beta.solana.com"
        (fun _ _ => RpcResponse.ok ⟨"0", 0, "0"⟩)).requests = [] := by decide

/-- Claim C2, amended: for every syntactically invalid address the program
panics at the first `.unwrap()` and performs no network access whatsoever
(zero requests); it does not return a typed `InvalidAddress` error, the code
having no error type at all. -/
theorem C2_invalid_address_crashes_no_network (addr ep : String) (oracle : RpcOracle)
    (h : pubkeyFromStr addr = none) :
    runWith addr ep oracle = ⟨[], Outcome.panicked⟩ := by
  simp [runWith, h]

/-- Claim C2 witness: the amended theorem applied to the program's own
(invalid) address constant. -/
theorem C2_invalid_address_crashes_no_network_witness :
    runWith "Token address" "https://api.mainnet-beta.solana.com"
      (fun _ _ => RpcResponse.ok ⟨"0", 0, "0"⟩) = ⟨[], Outcome.panicked⟩ :=
  C2_invalid_address_crashes_no_network _ _ _ (by decide)

/-- Claim C3: the `uiAmountString` rendering (modelled from the spec, the
formatting being performed ledger-side, not by code in this repository) is
exact: for every raw amount and decimal count, the integer/fraction
decomposition it renders denotes precisely `raw / 10^decimals` as a rational
number, and the four worked examples of the spec hold verbatim:
`(1500000,6) ↦ "1.5"`, `(0,0) ↦ "0"`, `(100,2) ↦ "1"`,
`(1,9) ↦ "0.000000001"`. -/
theorem C3_ui_amount_exact :
    (∀ raw d : Nat, uiValue (uiParts raw d) = (raw : ℚ) / 10 ^ d) ∧
      uiAmountString 1500000 6 = "1.5" ∧
      uiAmountString 0 0 = "0" ∧
      uiAmountString 100 2 = "1" ∧
      uiAmountString 1 9 = "0.000000001" :=
  ⟨uiParts_exact, by decide, by decide, by decide, by decide⟩

/-- Claim C4: parsing the embedded constant `TOKEN_ADDRESS = "Token address"`
fails (its base-58 decode fails on the space character), so the first
`.unwrap()` panics and no run of the program ever issues a network request:
every run is the panicked run with an empty request list. -/
theorem C4_placeholder_parse_fails_no_request :
    pubkeyFromStr TOKEN_ADDRESS = none ∧
      b58Decode TOKEN_ADDRESS = none ∧
      ∀ oracle : RpcOracle, mainRun oracle = ⟨[], Outcome.panicked⟩ :=
  ⟨by decide, by decide, fun _ => rfl⟩

/-- Claim C5: under the spec's corrected reading of the source's mismatched
variable names, whenever the address parses, the single RPC request queries
exactly the parsed pubkey at the given endpoint. -/
theorem C5_queried_equals_parsed (addr ep : String) (oracle : RpcOracle)
    (pk : List Nat) (h : pubkeyFromStr addr = some pk) :
    (runWith addr ep oracle).requests = [(ep, pk)] := by
  rcases ho : oracle ep pk <;> simp [runWith, h, ho]

/-- Claim C5 witness: the system-program address (thirty-two `1`s) parses to
thirty-two zero bytes, and the run's one request queries exactly that key. -/
theorem C5_queried_equals_parsed_witness :
    (runWith "11111111111111111111111111111111" MAIN_ENDPOINT
        (fun _ _ => RpcResponse.err)).requests =
      [(MAIN_ENDPOINT, List.replicate 32 0)] :=
  by
  have h : pubkeyFromStr "11111111111111111111111111111111" =
      some (List.replicate 32 0) := by decide
  exact C5_queried_equals_parsed _ _ _ _ h

/-- Claim C6 counterexample: the claim says the success-path line has the
exact form `Token Balance: <uiAmountString>`.  On a successful run the
program actually prints `Token Balance (using Rust): <uiAmountString>`, a
different string. -/
theorem C6_counterexample :
    (runWith "11111111111111111111111111111111" "https://api.mainnet-beta.solana.com"
        (fun _ _ => RpcResponse.ok ⟨"1500000", 6, "1.5"⟩)).outcome =
      Outcome.printed "Token Balance (using Rust): 1.5" ∧
      "Token Balance (using Rust): 1.5" ≠ "Token Balance: 1.5" := by decide

/-- Claim C6, amended: on success the program prints the single line
`Token Balance (using Rust): <uiAmountString>` (not `Token Balance: …`); the
RPC call itself returns the structured `UiTokenAmount` record, and the
formatting into text happens in `main`. -/
theorem C6_output_form (addr ep : String) (oracle : RpcOracle)
    (pk : List Nat) (bal : UiTokenAmount)
    (h1 : pubkeyFromStr addr = some pk) (h2 : oracle ep pk = RpcResponse.ok bal) :
    (runWith addr ep oracle).outcome =
      Outcome.printed ("Token Balance (using Rust): " ++ bal.ui_amount_string) := by
  simp [runWith, h1, h2]

/-- Claim C6 witness: a successful run on a valid address prints the
`(using Rust)` line. -/
theorem C6_output_form_witness :
    (runWith "11111111111111111111111111111111" "http://localhost:8899"
        (fun _ _ => RpcResponse.ok ⟨"100", 2, "1"⟩)).outcome =
      Outcome.printed ("Token Balance (using Rust): " ++ "1") :=
  by
  have h1 : pubkeyFromStr "11111111111111111111111111111111" =
      some (List.replicate 32 0) := by decide
  exact C6_output_form _ _ _ _ ⟨"100", 2, "1"⟩ h1 rfl

/-- Claim C7: every run issues at most one outbound request; every run that
reaches the RPC step (i.e. whose address parses) issues exactly one — in
particular never more than one: there are no internal retries — and every
successful run (one that prints) issues exactly one.  The model is a pure
function: no local shared state exists to mutate. -/
theorem C7_single_request (addr ep : String) (oracle : RpcOracle) :
    (runWith addr ep oracle).requests.length ≤ 1 ∧
      (∀ pk, pubkeyFromStr addr = some pk →
        (runWith addr ep oracle).requests.length = 1) ∧
      (∀ line, (runWith addr ep oracle).outcome = Outcome.printed line →
        (runWith addr ep oracle).requests.length = 1) := by
  rcases hp : pubkeyFromStr addr with _ | pk
  · refine ⟨by simp [runWith, hp], ?_, ?_⟩
    · intro pk h
      simp at h
    · intro line h
      simp [runWith, hp] at h
  · rcases ho : oracle ep pk with bal | _
    · exact ⟨by simp [runWith, hp, ho], fun _ _ => by simp [runWith, hp, ho],
        fun _ _ => by simp [runWith, hp, ho]⟩
    · exact ⟨by simp [runWith, hp, ho], fun _ _ => by simp [runWith, hp, ho],
        fun _ _ => by simp [runWith, hp, ho]⟩

/-- Claim C7 witness: a run on a valid address issues exactly one request. -/
theorem C7_single_request_witness :
    (runWith "11111111111111111111111111111111" "http://localhost:8899"
        (fun _ _ => RpcResponse.ok ⟨"1", 9, "0.000000001"⟩)).requests.length = 1 :=
  (C7_single_request _ _ _).2.1 (List.replicate 32 0) (by decide)

/-- Claim C8 counterexample: the claim says the endpoint and the queried
address are caller-supplied at invocation time and not embedded constants.
In the source both are embedded constants, and a concrete run of `main` is
definitionally `runWith` applied to exactly those two literals. -/
theorem C8_counterexample :
    TOKEN_ADDRESS = "Token address" ∧
      MAIN_ENDPOINT = "https://api.mainnet-beta.solana.com" ∧
      mainRun (fun _ _ => RpcResponse.err) =
        runWith "Token address" "https://api.mainnet-beta.solana.com"
          (fun _ _ => RpcResponse.err) :=
  ⟨rfl, rfl, rfl⟩

/-- Claim C8, amended: both the queried account address (`"Token address"`)
and the RPC endpoint (the mainnet-beta URL) are constants embedded in the
source; every run of `main` is `runWith` applied to exactly those constants,
and nothing about them is caller-supplied. -/
theorem C8_embedded_constants :
    (∀ oracle : RpcOracle, mainRun oracle = runWith TOKEN_ADDRESS MAIN_ENDPOINT oracle) ∧
      TOKEN_ADDRESS = "Token address" ∧
      MAIN_ENDPOINT = "https://api.mainnet-beta.solana.com" :=
  ⟨fun _ => rfl, rfl, rfl⟩

/-- Claim C9 counterexample: the claim says a simulated transport failure
makes the fetch return `FetchError::Transport`.  On a valid address with a
failing transport, the program instead panics at the second `.unwrap()`
after its single request. -/
theorem C9_counterexample :
    runWith "11111111111111111111111111111111" "https://api.mainnet-beta.solana.com"
        (fun _ _ => RpcResponse.err) =
      ⟨[("https://api.mainnet-beta.solana.com", List.replicate 32 0)],
        Outcome.panicked⟩ := by decide

/-- Claim C9, amended: under a simulated transport failure the run reaches
the Failed terminal state by panicking after its single request; no typed
`FetchError::Transport` is returned (every run of the model is a total
function, so termination itself holds, while real-time bounds are outside
the model). -/
theorem C9_transport_failure_crashes (addr ep : String) (oracle : RpcOracle)
    (pk : List Nat) (h1 : pubkeyFromStr addr = some pk)
    (h2 : oracle ep pk = RpcResponse.err) :
    runWith addr ep oracle = ⟨[(ep, pk)], Outcome.panicked⟩ := by
  simp [runWith, h1, h2]

/-- Claim C9 witness: a failing transport on a valid address yields the
panicked terminal run. -/
theorem C9_transport_failure_crashes_witness :
    runWith "11111111111111111111111111111111" "http://localhost:8899"
        (fun _ _ => RpcResponse.err) =
      ⟨[("http://localhost:8899", List.replicate 32 0)], Outcome.panicked⟩ :=
  C9_transport_failure_crashes _ _ _ _ (by decide) rfl

/-- Claim C10: the program reads no input other than the network's response
(modelled: `mainRun` is a function of the oracle alone, the source touching
neither argv nor the environment), and its observable behavior — requests
issued and output printed — is identical across any two runs, whatever
responses they observe: both address and endpoint are the same embedded
constants in every run (and in fact every run panics before the RPC call). -/
theorem C10_deterministic : ∀ o1 o2 : RpcOracle, mainRun o1 = mainRun o2 :=
  fun _ _ => rfl
